import Mathlib

/-!
Verification development for `dog.py`, a pet-camera monitoring script.

The script is a linear pipeline repeated on a timer:
HTTP GET an image -> base64-encode -> call a vision model -> parse the JSON
reply -> print results -> conditionally POST a Pushover notification.

We embed the script shallowly.  Every external interaction (HTTP, the
OpenAI call, Twilio, `time.sleep`) is recorded as an `Effect` in a trace,
and the outcome of each external call is an *input* to the embedded
function (the script itself contains no retry or state, so a cycle is a
pure function of these oracle inputs).  Python functions keep their
source names.  Python truthiness on strings, `None` and JSON values is
modelled explicitly.
-/

namespace Dog

/-- JSON values as produced by `json.loads`.  Numbers are modelled as
integers; the script only ever tests truthiness of numeric fields, never
their value, so the float/int distinction is irrelevant to it. -/
inductive JValue where
  | null : JValue
  | bool (b : Bool) : JValue
  | num  (n : Int) : JValue
  | str  (s : String) : JValue
  | arr  (xs : List JValue) : JValue
  | obj  (fields : List (String × JValue)) : JValue

/-- Python truthiness of a JSON value (`if result.get('isDanger'):` etc.):
`None`, `False`, `0`, `""`, `[]` and `{ }` are falsy, everything else truthy. -/
def jTruthy : JValue → Bool
  | .null => false
  | .bool b => b
  | .num n => n != 0
  | .str s => s != ""
  | .arr xs => !xs.isEmpty
  | .obj fs => !fs.isEmpty

/-- Python truthiness of an `os.getenv` result: `None` and `""` are falsy. -/
def strTruthy : Option String → Bool
  | none => false
  | some s => s != ""

/-- `d.get(k)` on a Python dict (insertion-ordered association list):
`None` when the key is absent. -/
def dictGet (d : List (String × JValue)) (k : String) : Option JValue :=
  (d.find? (fun p => p.1 == k)).map (fun p => p.2)

/-- `d[k] = v` on a Python dict: overwrite the key in place if present
(keeping its position; dict keys are unique), otherwise append. -/
def dictSet : List (String × JValue) → String → JValue → List (String × JValue)
  | [], k, v => [(k, v)]
  | p :: rest, k, v =>
      if p.1 == k then (k, v) :: rest else p :: dictSet rest k v

/-- Truthiness of `result.get(k)` (absent key gives `None`, which is falsy). -/
def dictGetTruthy (d : List (String × JValue)) (k : String) : Bool :=
  match dictGet d k with
  | none => false
  | some v => jTruthy v

mutual
/-- `json.dumps` on a JSON value.  Modelled without the `indent=2`
whitespace layout; the script only ever prints the result or embeds it in
a notification message, so only determinism and field content matter. -/
def dumpJson : JValue → String
  | .null => "null"
  | .bool true => "true"
  | .bool false => "false"
  | .num n => toString n
  | .str s => "\"" ++ s ++ "\""
  | .arr xs => "[" ++ dumpJsonList xs ++ "]"
  | .obj fs => "\x7b" ++ dumpJsonFields fs ++ "\x7d"

/-- Comma-separated rendering of a JSON array's elements. -/
def dumpJsonList : List JValue → String
  | [] => ""
  | [x] => dumpJson x
  | x :: xs => dumpJson x ++ ", " ++ dumpJsonList xs

/-- Comma-separated rendering of a JSON object's fields. -/
def dumpJsonFields : List (String × JValue) → String
  | [] => ""
  | [(k, v)] => "\"" ++ k ++ "\": " ++ dumpJson v
  | (k, v) :: fs => "\"" ++ k ++ "\": " ++ dumpJson v ++ ", " ++ dumpJsonFields fs
end

/-- Python `str()` of a JSON value, as used by the f-string
`f" {result.get('safety_concerns', '')}"`.  Strings render bare,
booleans capitalised, `None` as in Python; containers fall back to the
JSON rendering (the script's model replies put strings in these fields). -/
def pyStr : JValue → String
  | .str s => s
  | .bool true => "True"
  | .bool false => "False"
  | .null => "None"
  | .num n => toString n
  | v => dumpJson v

/-- The base64 alphabet used by `base64.b64encode`. -/
def b64Alphabet : List Char :=
  [ 'A','B','C','D','E','F','G','H','I','J','K','L','M',
    'N','O','P','Q','R','S','T','U','V','W','X','Y','Z',
    'a','b','c','d','e','f','g','h','i','j','k','l','m',
    'n','o','p','q','r','s','t','u','v','w','x','y','z',
    '0','1','2','3','4','5','6','7','8','9','+','/' ]

/-- One base64 digit. -/
def b64Char (n : Nat) : Char := b64Alphabet.getD n 'A'

/-- `encode_image_base64`: base64.b64encode(image_data).decode('utf-8').
Bytes are modelled as `Nat`s taken mod 256 by the encoder. -/
def encode_image_base64 : List Nat → String
  | [] => ""
  | [a] =>
      let a := a % 256
      String.mk [b64Char (a / 4), b64Char (a % 4 * 16), '=', '=']
  | [a, b] =>
      let a := a % 256
      let b := b % 256
      String.mk [b64Char (a / 4), b64Char (a % 4 * 16 + b / 16),
                 b64Char (b % 16 * 4), '=']
  | a :: b :: c :: rest =>
      let a := a % 256
      let b := b % 256
      let c := c % 256
      String.mk [b64Char (a / 4), b64Char (a % 4 * 16 + b / 16),
                 b64Char (b % 16 * 4 + c / 64), b64Char (c % 64)]
        ++ encode_image_base64 rest

/-- The module-level configuration read at import time.  `CAMERA_URL` is a
hardcoded string literal in the source; the remaining fields are
`os.getenv` results. -/
structure Config where
  CAMERA_URL : String
  openai_api_key : Option String
  twilio_account_sid : Option String
  twilio_auth_token : Option String
  twilio_from_number : Option String
  twilio_to_number : Option String
  twilio_service_sid : Option String
  pushover_api_token : Option String
  pushover_user_key : Option String
deriving DecidableEq, Repr

/-- The configuration block at the top of `dog.py`, as a function of the
process environment (`os.getenv`). -/
def loadConfig (getenv : String → Option String) : Config where
  CAMERA_URL := "http://localhost:5000/snapshot/pet-cam.jpg"
  openai_api_key := getenv "OPENAI_API_KEY"
  twilio_account_sid := getenv "TWILIO_ACCOUNT_SID"
  twilio_auth_token := getenv "TWILIO_AUTH_TOKEN"
  twilio_from_number := getenv "TWILIO_FROM_NUMBER"
  twilio_to_number := getenv "TWILIO_TO_NUMBER"
  twilio_service_sid := getenv "TWILIO_SERVICE_SID"
  pushover_api_token := getenv "PUSHOVER_API_TOKEN"
  pushover_user_key := getenv "PUSHOVER_USER_KEY"

/-- The hardcoded Pushover endpoint in `send_pushover_alert`. -/
def pushover_endpoint : String := "https://api.pushover.net/1/messages.json"

/-- `twilio_client = Client(sid, tok) if sid and tok else None`:
present exactly when both credentials are truthy. -/
def twilio_client (cfg : Config) : Option (String × String) :=
  if strTruthy cfg.twilio_account_sid && strTruthy cfg.twilio_auth_token then
    some ((cfg.twilio_account_sid).getD "", (cfg.twilio_auth_token).getD "")
  else none

/-- Observable steps of a run.  `print` goes to standard output; the
other constructors record external interactions in order. -/
inductive Effect where
  | print (s : String) : Effect
  | httpGet (url : String) : Effect
  | encodeB64 (data : List Nat) (out : String) : Effect
  | openaiCall (model : String) (image_b64 : String) : Effect
  | httpPost (url : String) : Effect
  | twilioSend (body : String) : Effect
  | sleep (seconds : Int) : Effect
deriving DecidableEq, Repr

/-- Oracle inputs of one monitoring cycle: everything outside the script
that the cycle observes.  `parseResp` is the result of `json.loads` on
the analysis text (`none` = `json.JSONDecodeError`); the model is
instructed to return a JSON object (`response_format json_object`), so a
successful parse yields an object's field list. -/
structure CycleInput where
  cfg : Config
  envENV : Option String    -- os.getenv('ENV'), read inside the cycle
  now_start : String        -- datetime.now() printed at cycle start
  now_iso : String          -- datetime.now().isoformat() for the timestamp field
  cameraResp : Except String (List Nat)  -- requests.get: error message or body bytes
  modelResp : Except String String       -- openai call: exception message or content
  parseResp : Option (List (String × JValue))
  pushoverResp : Except String Unit      -- requests.post + raise_for_status

/-- `capture_image`: GET the camera URL; on any `RequestException` print
the error and return `None`, otherwise return the body bytes. -/
def capture_image (cfg : Config) (resp : Except String (List Nat)) :
    List Effect × Option (List Nat) :=
  match resp with
  | .ok content => ([.httpGet cfg.CAMERA_URL], some content)
  | .error e =>
      ([.httpGet cfg.CAMERA_URL, .print ("Error capturing image: " ++ e)], none)

/-- `send_text_alert`: Twilio SMS path.  Dead code in the script (its
only call site is commented out), embedded for completeness.
`twilioResult` is the oracle for `twilio_client.messages.create`. -/
def send_text_alert (cfg : Config) (twilioResult : Except String String)
    (message : String) : List Effect :=
  if (twilio_client cfg).isNone || !strTruthy cfg.twilio_to_number
      || !strTruthy cfg.twilio_from_number then
    [.print "Twilio credentials not fully set. Cannot send text alert.",
     .print ("Message: " ++ message)]
  else
    match twilioResult with
    | .ok sid =>
        [.twilioSend ("Dog Cam Alert:\n\n" ++ message),
         .print ("Sent text message SID: " ++ sid)]
    | .error e =>
        [.twilioSend ("Dog Cam Alert:\n\n" ++ message),
         .print ("Error sending text message via Twilio: " ++ e)]

/-- `send_pushover_alert`: if either credential is falsy, log and return;
otherwise POST to the Pushover endpoint and log success or the
`RequestException`. -/
def send_pushover_alert (cfg : Config) (resp : Except String Unit)
    (message : String) (title : String) : List Effect :=
  if !strTruthy cfg.pushover_api_token || !strTruthy cfg.pushover_user_key then
    [.print "Pushover credentials not set. Cannot send notification.",
     .print ("Title: " ++ title),
     .print ("Message: " ++ message)]
  else
    match resp with
    | .ok _ =>
        [.httpPost pushover_endpoint,
         .print "Sent Pushover notification successfully."]
    | .error e =>
        [.httpPost pushover_endpoint,
         .print ("Error sending Pushover notification: " ++ e)]

/-- `analyze_image_with_gpt`: base64-encode the image, call the chat
completion endpoint; on any exception print the error and return `None`,
otherwise return `response.choices[0].message.content`. -/
def analyze_image_with_gpt (image_data : List Nat)
    (resp : Except String String) : List Effect × Option String :=
  let base64_image := encode_image_base64 image_data
  match resp with
  | .ok content =>
      ([.encodeB64 image_data base64_image, .openaiCall "gpt-4o" base64_image],
       some content)
  | .error e =>
      ([.encodeB64 image_data base64_image, .openaiCall "gpt-4o" base64_image,
        .print ("Error analyzing image with GPT: " ++ e)],
       none)

/-- `"="*50`. -/
def eqBar : String := String.mk (List.replicate 50 '=')

/-- The guard of the notification branch (line 185 of the source):
`result.get('isViewObstructed') or result.get('isDanger') or
os.getenv('ENV') == 'dev'`, evaluated on the record with the timestamp
already set. -/
def alertCondition (inp : CycleInput) (obj : List (String × JValue)) : Bool :=
  let result := dictSet obj "timestamp" (.str inp.now_iso)
  dictGetTruthy result "isViewObstructed" || dictGetTruthy result "isDanger"
    || (inp.envENV == some "dev")

/-- The tail of `main` after a successful JSON parse: build the record,
print it, print the alert lines, and conditionally notify. -/
def mainParsed (inp : CycleInput) (obj : List (String × JValue)) : List Effect :=
  let result := dictSet obj "timestamp" (.str inp.now_iso)
  [Effect.print ("\n" ++ eqBar),
   Effect.print "ANALYSIS RESULTS:",
   Effect.print eqBar,
   Effect.print (dumpJson (.obj result))]
  ++ (if dictGetTruthy result "isDanger" then
        [Effect.print "\n🚨 SAFETY ALERT: "]
      else
        [Effect.print "\nNO SAFETY ALERT: "])
  ++ [Effect.print (" " ++ pyStr ((dictGet result "safety_concerns").getD (.str "")))]
  ++ (if dictGetTruthy result "cleanliness_issues" then
        [Effect.print ("🧹 CLEANLINESS NOTICE: "
          ++ pyStr ((dictGet result "cleanliness_issues").getD .null))]
      else [])
  ++ (if alertCondition inp obj then
        Effect.print "\nSending notification alert..."
          :: send_pushover_alert inp.cfg inp.pushoverResp
               (dumpJson (.obj result)) "Dog Cam Alert"
        -- the `send_text_alert(alert_message)` call is commented out in the source
      else [])

/-- `main`: one monitoring cycle. -/
def main (inp : CycleInput) : List Effect :=
  let t0 : List Effect :=
    [.print ("Starting pet camera analysis at " ++ inp.now_start),
     .print "Capturing image..."]
  let cap := capture_image inp.cfg inp.cameraResp
  match cap.2 with
  | none => t0 ++ cap.1 ++ [.print "Failed to capture image. Exiting."]
  | some image_data =>
    let t1 := t0 ++ cap.1
      ++ [.print ("Image captured successfully ("
            ++ toString image_data.length ++ " bytes)"),
          .print "Analyzing with ChatGPT..."]
    let an := analyze_image_with_gpt image_data inp.modelResp
    let t2 := t1 ++ an.1
    match an.2 with
    | some analysis =>
        if analysis != "" then
          match inp.parseResp with
          | some obj => t2 ++ mainParsed inp obj
          | none => t2 ++ [.print "Error parsing JSON response:", .print analysis]
        else t2 ++ [.print "Failed to get analysis from ChatGPT"]
    | none => t2 ++ [.print "Failed to get analysis from ChatGPT"]

/-- One iteration of the `while True` loop in `continuous_monitoring`:
run `main`, print the wait message, sleep `interval_minutes * 60`. -/
def iterationTrace (interval_minutes : Int) (c : CycleInput) : List Effect :=
  main c
  ++ [.print ("\nWaiting " ++ toString interval_minutes
        ++ " minutes until next check..."),
      .sleep (interval_minutes * 60)]

/-- `continuous_monitoring`: header prints, then the loop body once per
element of `cycles` (the oracle inputs of the iterations completed before
the `KeyboardInterrupt`), then the interrupt message. -/
def continuous_monitoring (interval_minutes : Int) (cycles : List CycleInput) :
    List Effect :=
  [.print ("Starting continuous monitoring (every "
      ++ toString interval_minutes ++ " minutes)"),
   .print "Press Ctrl+C to stop"]
  ++ (cycles.map (iterationTrace interval_minutes)).flatten
  ++ [.print "\nMonitoring stopped by user"]

/-- `argparse` interval resolution: the `--interval` flag with `default=5`. -/
def parseIntervalArg (flag : Option Int) : Int := flag.getD 5

/-- The `if __name__ == "__main__":` block: `if args.interval:` is Python
int truthiness, so any nonzero interval enters continuous monitoring and
interval `0` falls to the single-analysis branch.  `single` is the oracle
input of the one cycle run in that branch. -/
def script_entry (interval : Int) (cycles : List CycleInput)
    (single : CycleInput) : List Effect :=
  if interval != 0 then continuous_monitoring interval cycles
  else .print "Running a single analysis." :: main single

/-- How a run of `continuous_monitoring` ends: `interrupted` is the
`KeyboardInterrupt` handler (the only exception the loop catches);
`valueError` is the uncaught `ValueError` that CPython's `time.sleep`
raises on a negative duration, which kills the program. -/
inductive LoopExit where
  | interrupted : LoopExit
  | valueError : LoopExit
deriving DecidableEq, Repr

/-- The `while True` body of `continuous_monitoring`, with `time.sleep`
modelled faithfully: a call with a negative duration raises `ValueError`,
which `except KeyboardInterrupt` does not catch, so the loop stops at that
call and the run dies; a nonnegative sleep succeeds and the loop
continues with the next iteration's oracle input.  An empty input list
means `KeyboardInterrupt` arrives before the next cycle starts. -/
def monitorIter (interval_minutes : Int) :
    List CycleInput → List Effect × LoopExit
  | [] => ([.print "\nMonitoring stopped by user"], .interrupted)
  | c :: rest =>
      let body := main c
        ++ [.print ("\nWaiting " ++ toString interval_minutes
              ++ " minutes until next check...")]
      if interval_minutes * 60 < 0 then
        (body ++ [.sleep (interval_minutes * 60)], .valueError)
      else
        let next := monitorIter interval_minutes rest
        (body ++ [.sleep (interval_minutes * 60)] ++ next.1, next.2)

/-- `continuous_monitoring` with the sleep failure path included: the two
header prints, then the loop body per oracle input, ending either in the
interrupt message or in the fatal `ValueError`.  For nonnegative
intervals its trace coincides with `continuous_monitoring`. -/
def monitorRun (interval_minutes : Int) (cycles : List CycleInput) :
    List Effect × LoopExit :=
  ([.print ("Starting continuous monitoring (every "
      ++ toString interval_minutes ++ " minutes)"),
    .print "Press Ctrl+C to stop"]
   ++ (monitorIter interval_minutes cycles).1,
   (monitorIter interval_minutes cycles).2)

/-- Number of effects in a trace satisfying `p`. -/
def countP (t : List Effect) (p : Effect → Bool) : Nat := (t.filter p).length

/-- Recognisers for the effect kinds. -/
def isGet : Effect → Bool
  | .httpGet _ => true
  | _ => false

def isEncode : Effect → Bool
  | .encodeB64 _ _ => true
  | _ => false

def isOpenai : Effect → Bool
  | .openaiCall _ _ => true
  | _ => false

def isPost : Effect → Bool
  | .httpPost _ => true
  | _ => false

def isTwilioSend : Effect → Bool
  | .twilioSend _ => true
  | _ => false

def isSleep : Effect → Bool
  | .sleep _ => true
  | _ => false

/-- The trace shared by every branch of `main` that survives the camera
fetch: the two startup prints, the GET, the two progress prints, the
base64 encoding and the model call. -/
def okLead (inp : CycleInput) (img : List Nat) : List Effect :=
  [.print ("Starting pet camera analysis at " ++ inp.now_start),
   .print "Capturing image...",
   .httpGet inp.cfg.CAMERA_URL,
   .print ("Image captured successfully (" ++ toString img.length ++ " bytes)"),
   .print "Analyzing with ChatGPT...",
   .encodeB64 img (encode_image_base64 img),
   .openaiCall "gpt-4o" (encode_image_base64 img)]

/-- Whether both Pushover credentials are truthy. -/
def pushoverCreds (cfg : Config) : Bool :=
  strTruthy cfg.pushover_api_token && strTruthy cfg.pushover_user_key

/-- Every failure the spec names is logged to standard output: a camera
network error, a model-call exception, and a JSON decode error each leave
their message in the cycle's printed trace. -/
def failure_logged (inp : CycleInput) : Prop :=
  (∀ e, inp.cameraResp = .error e →
    Effect.print ("Error capturing image: " ++ e) ∈ main inp) ∧
  (∀ img e, inp.cameraResp = .ok img → inp.modelResp = .error e →
    Effect.print ("Error analyzing image with GPT: " ++ e) ∈ main inp) ∧
  (∀ img content, inp.cameraResp = .ok img → inp.modelResp = .ok content →
    content ≠ "" → inp.parseResp = none →
    Effect.print "Error parsing JSON response:" ∈ main inp)

/-- Missing Pushover credentials and a failed Pushover POST are caught
inside `send_pushover_alert` and logged. -/
def pushover_failures_logged : Prop :=
  (∀ cfg resp m t, pushoverCreds cfg = false →
    Effect.print "Pushover credentials not set. Cannot send notification."
      ∈ send_pushover_alert cfg resp m t) ∧
  (∀ cfg e m t, pushoverCreds cfg = true →
    Effect.print ("Error sending Pushover notification: " ++ e)
      ∈ send_pushover_alert cfg (.error e) m t)

/-- No operation is retried within a cycle: the camera GET happens exactly
once, the model call and the notification POST at most once. -/
def no_retry (inp : CycleInput) : Prop :=
  countP (main inp) isGet = 1 ∧ countP (main inp) isOpenai ≤ 1 ∧
  countP (main inp) isEncode ≤ 1 ∧ countP (main inp) isPost ≤ 1

/-! ### Concrete fixtures used by counterexamples and witnesses -/

/-- A configuration with Pushover credentials set and Twilio unset. -/
def cfgFull : Config where
  CAMERA_URL := "http://localhost:5000/snapshot/pet-cam.jpg"
  openai_api_key := some "sk-test"
  twilio_account_sid := none
  twilio_auth_token := none
  twilio_from_number := none
  twilio_to_number := none
  twilio_service_sid := none
  pushover_api_token := some "po-token"
  pushover_user_key := some "po-user"

/-- A cycle whose camera fetch fails with a network error. -/
def inpCamFail : CycleInput where
  cfg := cfgFull
  envENV := none
  now_start := "2026-10-12 08:00:00"
  now_iso := "2026-10-12T08:00:00"
  cameraResp := .error "connection refused"
  modelResp := .error "not reached"
  parseResp := none
  pushoverResp := .ok ()

/-- A model reply reporting neither danger nor obstruction. -/
def objDevOnly : List (String × JValue) :=
  [("isDanger", .bool false), ("isViewObstructed", .bool false),
   ("isDogPresent", .bool true), ("dog_location", .str "sofa"),
   ("dog_activity", .str "sleeping"), ("safety_concerns", .str ""),
   ("cleanliness_issues", .str ""), ("coffee_table_items", .str ""),
   ("overall_assessment", .str "calm")]

/-- A successful cycle with `ENV=dev` and a calm model reply. -/
def inpDevAlert : CycleInput where
  cfg := cfgFull
  envENV := some "dev"
  now_start := "2026-10-12 08:05:00"
  now_iso := "2026-10-12T08:05:00"
  cameraResp := .ok [255, 216]
  modelResp := .ok "(raw model reply)"
  parseResp := some objDevOnly
  pushoverResp := .ok ()

/-- A model reply reporting a danger condition. -/
def objDanger : List (String × JValue) :=
  [("isDanger", .bool true), ("isViewObstructed", .bool false),
   ("isDogPresent", .bool true), ("safety_concerns", .str "chocolate bar"),
   ("overall_assessment", .str "dog near the table")]

/-- A successful cycle whose model reply reports danger. -/
def inpDanger : CycleInput where
  cfg := cfgFull
  envENV := none
  now_start := "2026-10-12 08:10:00"
  now_iso := "2026-10-12T08:10:00"
  cameraResp := .ok [1, 2, 3]
  modelResp := .ok "(raw model reply)"
  parseResp := some objDanger
  pushoverResp := .ok ()

/-- A model reply that itself carries a (stale) `timestamp` field. -/
def objStaleTimestamp : List (String × JValue) :=
  [("isDanger", .bool false), ("isViewObstructed", .bool false),
   ("timestamp", .str "1999-12-31T23:59:59")]

/-- A successful cycle whose model reply carries its own timestamp. -/
def inpStaleTimestamp : CycleInput where
  cfg := cfgFull
  envENV := none
  now_start := "2026-10-12 09:00:00"
  now_iso := "2026-10-12T09:00:00"
  cameraResp := .ok [0]
  modelResp := .ok "(raw model reply)"
  parseResp := some objStaleTimestamp
  pushoverResp := .ok ()

/-- A process environment defining no variables. -/
def envEmpty : String → Option String := fun _ => none

/-- A process environment defining every variable, each with a value
derived from its own name. -/
def envCustom : String → Option String := fun k => some ("custom-" ++ k)

/-! ### Helper lemmas about traces -/

theorem countP_nil (p : Effect → Bool) : countP [] p = 0 := rfl

theorem countP_append (a b : List Effect) (p : Effect → Bool) :
    countP (a ++ b) p = countP a p + countP b p := by
  simp [countP, List.filter_append]

theorem countP_cons (e : Effect) (t : List Effect) (p : Effect → Bool) :
    countP (e :: t) p = (if p e then 1 else 0) + countP t p := by
  simp only [countP, List.filter_cons]
  split <;> simp [Nat.add_comm]

theorem countP_eq_zero (t : List Effect) (p : Effect → Bool) :
    countP t p = 0 ↔ ∀ e ∈ t, ¬p e := by
  simp [countP, List.filter_eq_nil_iff]

theorem main_cam_error (inp : CycleInput) (e : String)
    (h : inp.cameraResp = .error e) :
    main inp =
      [.print ("Starting pet camera analysis at " ++ inp.now_start),
       .print "Capturing image...",
       .httpGet inp.cfg.CAMERA_URL,
       .print ("Error capturing image: " ++ e),
       .print "Failed to capture image. Exiting."] := by
  simp [main, capture_image, h]

theorem main_model_error (inp : CycleInput) (img : List Nat) (e : String)
    (hc : inp.cameraResp = .ok img) (hm : inp.modelResp = .error e) :
    main inp = okLead inp img
      ++ [.print ("Error analyzing image with GPT: " ++ e),
          .print "Failed to get analysis from ChatGPT"] := by
  simp [main, capture_image, analyze_image_with_gpt, okLead, hc, hm]

theorem main_no_content (inp : CycleInput) (img : List Nat)
    (hc : inp.cameraResp = .ok img) (hm : inp.modelResp = .ok "") :
    main inp = okLead inp img
      ++ [.print "Failed to get analysis from ChatGPT"] := by
  simp [main, capture_image, analyze_image_with_gpt, okLead, hc, hm]

theorem main_parse_error (inp : CycleInput) (img : List Nat) (content : String)
    (hc : inp.cameraResp = .ok img) (hm : inp.modelResp = .ok content)
    (hne : content ≠ "") (hp : inp.parseResp = none) :
    main inp = okLead inp img
      ++ [.print "Error parsing JSON response:", .print content] := by
  simp [main, capture_image, analyze_image_with_gpt, okLead, hc, hm, hp, hne]

theorem main_parsed_eq (inp : CycleInput) (img : List Nat) (content : String)
    (obj : List (String × JValue))
    (hc : inp.cameraResp = .ok img) (hm : inp.modelResp = .ok content)
    (hne : content ≠ "") (hp : inp.parseResp = some obj) :
    main inp = okLead inp img ++ mainParsed inp obj := by
  simp [main, capture_image, analyze_image_with_gpt, okLead, hc, hm, hp, hne]

theorem send_pushover_count_isPost (cfg : Config) (resp : Except String Unit)
    (m t : String) :
    countP (send_pushover_alert cfg resp m t) isPost =
      if pushoverCreds cfg then 1 else 0 := by
  rcases resp with e | u <;>
    simp [send_pushover_alert, pushoverCreds, countP, List.filter, isPost] <;>
    by_cases h1 : strTruthy cfg.pushover_api_token <;>
    by_cases h2 : strTruthy cfg.pushover_user_key <;>
    simp [h1, h2, List.filter, isPost]

theorem send_pushover_count_other (cfg : Config) (resp : Except String Unit)
    (m t : String) (p : Effect → Bool)
    (hprint : ∀ s, p (.print s) = false) (hpost : ∀ u, p (.httpPost u) = false) :
    countP (send_pushover_alert cfg resp m t) p = 0 := by
  rcases resp with e | u <;>
    by_cases h1 : strTruthy cfg.pushover_api_token <;>
    by_cases h2 : strTruthy cfg.pushover_user_key <;>
    simp [send_pushover_alert, h1, h2, countP, List.filter, hprint, hpost]

theorem mainParsed_count_isPost (inp : CycleInput) (obj : List (String × JValue)) :
    countP (mainParsed inp obj) isPost =
      if alertCondition inp obj && pushoverCreds inp.cfg then 1 else 0 := by
  have hsend := send_pushover_count_isPost inp.cfg inp.pushoverResp
    (dumpJson (.obj (dictSet obj "timestamp" (.str inp.now_iso)))) "Dog Cam Alert"
  by_cases hA : alertCondition inp obj <;>
    by_cases hCl : dictGetTruthy (dictSet obj "timestamp" (.str inp.now_iso))
        "cleanliness_issues" <;>
    by_cases hD : dictGetTruthy (dictSet obj "timestamp" (.str inp.now_iso))
        "isDanger" <;>
    simp [mainParsed, hA, hCl, hD, countP_append, countP_cons, countP_nil,
          hsend, isPost]

theorem mainParsed_count_other (inp : CycleInput) (obj : List (String × JValue))
    (p : Effect → Bool)
    (hprint : ∀ s, p (.print s) = false) (hpost : ∀ u, p (.httpPost u) = false) :
    countP (mainParsed inp obj) p = 0 := by
  have hsend := send_pushover_count_other inp.cfg inp.pushoverResp
    (dumpJson (.obj (dictSet obj "timestamp" (.str inp.now_iso)))) "Dog Cam Alert"
    p hprint hpost
  by_cases hA : alertCondition inp obj <;>
    by_cases hCl : dictGetTruthy (dictSet obj "timestamp" (.str inp.now_iso))
        "cleanliness_issues" <;>
    by_cases hD : dictGetTruthy (dictSet obj "timestamp" (.str inp.now_iso))
        "isDanger" <;>
    simp [mainParsed, hA, hCl, hD, countP_append, countP_cons, countP_nil,
          hsend, hprint, hpost]

/-- Every branch of `main` performs the camera GET exactly once. -/
theorem main_count_isGet (inp : CycleInput) : countP (main inp) isGet = 1 := by
  rcases hc : inp.cameraResp with e | img
  · simp [main_cam_error inp e hc, countP, List.filter, isGet]
  · rcases hm : inp.modelResp with e | content
    · simp [main_model_error inp img e hc hm, okLead, countP_append,
            countP, List.filter, isGet]
    · by_cases hne : content = ""
      · subst hne
        simp [main_no_content inp img hc hm, okLead, countP_append,
              countP, List.filter, isGet]
      · rcases hp : inp.parseResp with _ | obj
        · simp [main_parse_error inp img content hc hm hne hp, okLead,
                countP_append, countP, List.filter, isGet]
        · have h0 : countP (mainParsed inp obj) isGet = 0 :=
            mainParsed_count_other inp obj isGet
              (fun _ => rfl) (fun _ => rfl)
          rw [main_parsed_eq inp img content obj hc hm hne hp, countP_append, h0]
          simp [okLead, countP_cons, countP_nil, isGet]

/-- A cycle contains no effect outside the five kinds it is built from:
any predicate false on prints, GETs, encodes, model calls and POSTs
counts zero occurrences in `main`. -/
theorem main_count_other (inp : CycleInput) (p : Effect → Bool)
    (hprint : ∀ s, p (.print s) = false)
    (hget : ∀ u, p (.httpGet u) = false)
    (henc : ∀ d o, p (.encodeB64 d o) = false)
    (hopen : ∀ m b, p (.openaiCall m b) = false)
    (hpost : ∀ u, p (.httpPost u) = false) :
    countP (main inp) p = 0 := by
  rcases hc : inp.cameraResp with e | img
  · simp [main_cam_error inp e hc, countP_cons, countP_nil, hprint, hget]
  · rcases hm : inp.modelResp with e | content
    · simp [main_model_error inp img e hc hm, okLead, countP_append,
            countP_cons, countP_nil, hprint, hget, henc, hopen]
    · by_cases hne : content = ""
      · subst hne
        simp [main_no_content inp img hc hm, okLead, countP_append,
              countP_cons, countP_nil, hprint, hget, henc, hopen]
      · rcases hp : inp.parseResp with _ | obj
        · simp [main_parse_error inp img content hc hm hne hp, okLead,
                countP_append, countP_cons, countP_nil, hprint, hget, henc, hopen]
        · have h0 := mainParsed_count_other inp obj p hprint hpost
          rw [main_parsed_eq inp img content obj hc hm hne hp, countP_append, h0]
          simp [okLead, countP_cons, countP_nil, hprint, hget, henc, hopen]

theorem main_count_isSleep (inp : CycleInput) : countP (main inp) isSleep = 0 :=
  main_count_other inp isSleep (fun _ => rfl) (fun _ => rfl) (fun _ _ => rfl)
    (fun _ _ => rfl) (fun _ => rfl)

theorem main_count_isTwilioSend (inp : CycleInput) :
    countP (main inp) isTwilioSend = 0 :=
  main_count_other inp isTwilioSend (fun _ => rfl) (fun _ => rfl) (fun _ _ => rfl)
    (fun _ _ => rfl) (fun _ => rfl)

/-- No cycle performs the encode, the model call or the POST more than
once: nothing is retried. -/
theorem main_counts_le (inp : CycleInput) :
    countP (main inp) isOpenai ≤ 1 ∧ countP (main inp) isEncode ≤ 1 ∧
      countP (main inp) isPost ≤ 1 := by
  rcases hc : inp.cameraResp with e | img
  · simp [main_cam_error inp e hc, countP_cons, countP_nil,
          isOpenai, isEncode, isPost]
  · rcases hm : inp.modelResp with e | content
    · simp [main_model_error inp img e hc hm, okLead, countP_append,
            countP_cons, countP_nil, isOpenai, isEncode, isPost]
    · by_cases hne : content = ""
      · subst hne
        simp [main_no_content inp img hc hm, okLead, countP_append,
              countP_cons, countP_nil, isOpenai, isEncode, isPost]
      · rcases hp : inp.parseResp with _ | obj
        · simp [main_parse_error inp img content hc hm hne hp, okLead,
                countP_append, countP_cons, countP_nil, isOpenai, isEncode, isPost]
        · have hO := mainParsed_count_other inp obj isOpenai
            (fun _ => rfl) (fun _ => rfl)
          have hE := mainParsed_count_other inp obj isEncode
            (fun _ => rfl) (fun _ => rfl)
          have hP := mainParsed_count_isPost inp obj
          rw [main_parsed_eq inp img content obj hc hm hne hp]
          simp [countP_append, hO, hE, hP, okLead, countP_cons, countP_nil,
                isOpenai, isEncode, isPost]
          split <;> simp

theorem sleep_not_mem_main (inp : CycleInput) (s : Int) :
    Effect.sleep s ∉ main inp := by
  intro hmem
  have h := (countP_eq_zero (main inp) isSleep).1 (main_count_isSleep inp)
      _ hmem
  simp [isSleep] at h

theorem iteration_count_isSleep (i : Int) (c : CycleInput) :
    countP (iterationTrace i c) isSleep = 1 := by
  simp [iterationTrace, countP_append, main_count_isSleep, countP_cons,
        countP_nil, isSleep]

theorem flatten_count_isSleep (i : Int) (cycles : List CycleInput) :
    countP ((cycles.map (iterationTrace i)).flatten) isSleep = cycles.length := by
  induction cycles with
  | nil => rfl
  | cons c cs ih =>
      simp only [List.map_cons, List.flatten_cons, countP_append,
                 iteration_count_isSleep, ih, List.length_cons]
      omega

/-- The loop sleeps exactly once per iteration, whatever each cycle did. -/
theorem continuous_count_isSleep (i : Int) (cycles : List CycleInput) :
    countP (continuous_monitoring i cycles) isSleep = cycles.length := by
  simp [continuous_monitoring, countP_append, countP_cons, countP_nil, isSleep,
        flatten_count_isSleep]

/-- Every sleep in a monitoring run waits `interval * 60` seconds. -/
theorem sleep_mem_continuous (i : Int) (cycles : List CycleInput) (s : Int)
    (h : Effect.sleep s ∈ continuous_monitoring i cycles) : s = i * 60 := by
  simp only [continuous_monitoring] at h
  rcases List.mem_append.1 h with h1 | hft
  · rcases List.mem_append.1 h1 with hhd | hfl
    · simp at hhd
    · rcases List.mem_flatten.1 hfl with ⟨seg, hseg, hmem⟩
      rcases List.mem_map.1 hseg with ⟨c, _, rfl⟩
      simp only [iterationTrace] at hmem
      rcases List.mem_append.1 hmem with hm | ht
      · exact absurd hm (sleep_not_mem_main c s)
      · simp at ht
        exact ht
  · simp at hft

/-- With a nonnegative sleep duration, no sleep call raises, so the
faithful loop body runs every iteration and ends in the interrupt
message, exactly as the idealized loop trace. -/
theorem monitorIter_nonneg (i : Int) (h : 0 ≤ i * 60)
    (cycles : List CycleInput) :
    monitorIter i cycles =
      ((cycles.map (iterationTrace i)).flatten
        ++ [.print "\nMonitoring stopped by user"], .interrupted) := by
  induction cycles with
  | nil => simp [monitorIter]
  | cons c cs ih =>
      rw [monitorIter, if_neg (by omega)]
      simp [ih, iterationTrace, List.append_assoc]

/-- For nonnegative intervals the faithful run and the idealized
`continuous_monitoring` trace coincide, and the run ends interrupted. -/
theorem monitorRun_nonneg (i : Int) (h : 0 ≤ i * 60)
    (cycles : List CycleInput) :
    monitorRun i cycles = (continuous_monitoring i cycles, .interrupted) := by
  rw [monitorRun, monitorIter_nonneg i h cycles]
  simp [continuous_monitoring, List.append_assoc]

/-- For a negative interval the loop dies at the first sleep: the run is
the header, one full cycle, the wait print and the raising sleep call. -/
theorem monitorRun_neg (i : Int) (h : i < 0) (c : CycleInput)
    (rest : List CycleInput) :
    monitorRun i (c :: rest) =
      ([.print ("Starting continuous monitoring (every "
          ++ toString i ++ " minutes)"),
        .print "Press Ctrl+C to stop"]
       ++ main c
       ++ [.print ("\nWaiting " ++ toString i
             ++ " minutes until next check..."),
           .sleep (i * 60)], .valueError) := by
  rw [monitorRun, monitorIter, if_pos (by omega)]
  simp [List.append_assoc]

theorem any_iff_countP (t : List Effect) (p : Effect → Bool) :
    t.any p = true ↔ countP t p ≠ 0 := by
  rw [Ne, countP_eq_zero]
  simp [List.any_eq_true]

theorem dictGet_cons (p : String × JValue) (l : List (String × JValue))
    (k : String) :
    dictGet (p :: l) k = if p.1 = k then some p.2 else dictGet l k := by
  by_cases h : p.1 = k
  · rw [if_pos h]
    unfold dictGet
    rw [List.find?_cons_of_pos _ (by simpa using h)]
    rfl
  · rw [if_neg h]
    unfold dictGet
    rw [List.find?_cons_of_neg _ (by simpa using h)]

theorem dictSet_cons (p : String × JValue) (l : List (String × JValue))
    (k : String) (v : JValue) :
    dictSet (p :: l) k v =
      if p.1 == k then (k, v) :: l else p :: dictSet l k v := rfl

/-- Setting a key then reading it back gives the new value. -/
theorem dictGet_dictSet_self (d : List (String × JValue)) (k : String)
    (v : JValue) : dictGet (dictSet d k v) k = some v := by
  induction d with
  | nil =>
      show dictGet [(k, v)] k = some v
      rw [dictGet_cons, if_pos rfl]
  | cons p rest ih =>
      rw [dictSet_cons]
      by_cases h : p.1 = k
      · rw [if_pos (by simpa using h), dictGet_cons, if_pos rfl]
      · rw [if_neg (by simpa using h), dictGet_cons, if_neg h]
        exact ih

/-- Setting a key leaves every other key's value unchanged. -/
theorem dictGet_dictSet_ne (d : List (String × JValue)) (k k' : String)
    (v : JValue) (h : k' ≠ k) :
    dictGet (dictSet d k v) k' = dictGet d k' := by
  induction d with
  | nil =>
      show dictGet [(k, v)] k' = dictGet [] k'
      rw [dictGet_cons, if_neg (fun hk => h hk.symm)]
  | cons p rest ih =>
      rw [dictSet_cons]
      by_cases hp : p.1 = k
      · rw [if_pos (by simpa using hp), dictGet_cons, dictGet_cons,
            if_neg (fun hk => h hk.symm),
            if_neg (by rw [hp]; exact fun hk => h hk.symm)]
      · rw [if_neg (by simpa using hp), dictGet_cons, dictGet_cons]
        by_cases hp' : p.1 = k'
        · rw [if_pos hp', if_pos hp']
        · rw [if_neg hp', if_neg hp']
          exact ih

theorem iteration_count_isTwilioSend (i : Int) (c : CycleInput) :
    countP (iterationTrace i c) isTwilioSend = 0 := by
  simp [iterationTrace, countP_append, main_count_isTwilioSend, countP_cons,
        countP_nil, isTwilioSend]

theorem flatten_count_isTwilioSend (i : Int) (cycles : List CycleInput) :
    countP ((cycles.map (iterationTrace i)).flatten) isTwilioSend = 0 := by
  induction cycles with
  | nil => rfl
  | cons c cs ih =>
      simp only [List.map_cons, List.flatten_cons, countP_append,
                 iteration_count_isTwilioSend, ih]

theorem continuous_count_isTwilioSend (i : Int) (cycles : List CycleInput) :
    countP (continuous_monitoring i cycles) isTwilioSend = 0 := by
  simp [continuous_monitoring, countP_append, countP_cons, countP_nil,
        isTwilioSend, flatten_count_isTwilioSend]

theorem twilio_client_isSome (cfg : Config) :
    (twilio_client cfg).isSome =
      (strTruthy cfg.twilio_account_sid && strTruthy cfg.twilio_auth_token) := by
  by_cases h : strTruthy cfg.twilio_account_sid && strTruthy cfg.twilio_auth_token <;>
    simp [twilio_client, h]

theorem send_text_count_isTwilioSend (cfg : Config) (r : Except String String)
    (m : String) :
    countP (send_text_alert cfg r m) isTwilioSend =
      if !(twilio_client cfg).isNone && strTruthy cfg.twilio_to_number
          && strTruthy cfg.twilio_from_number then 1 else 0 := by
  rcases r with e | sid <;>
    by_cases h1 : (twilio_client cfg).isNone <;>
    by_cases h2 : strTruthy cfg.twilio_to_number <;>
    by_cases h3 : strTruthy cfg.twilio_from_number <;>
    simp [send_text_alert, h1, h2, h3, countP_cons, countP_nil, isTwilioSend]

/-! ### Claim theorems -/

/-- Claim C1, counterexample: with `ENV=dev` in the environment, a cycle
whose parsed record reports neither danger nor obstruction still
dispatches a Pushover POST (line 185 of the source also alerts when
`os.getenv('ENV') == 'dev'`), so danger/obstruction are not the only
dispatch triggers. -/
theorem C1_dispatch_also_on_dev_counterexample :
    (main inpDevAlert).any isPost = true ∧
    inpDevAlert.parseResp = some objDevOnly ∧
    dictGetTruthy (dictSet objDevOnly "timestamp" (.str inpDevAlert.now_iso))
      "isDanger" = false ∧
    dictGetTruthy (dictSet objDevOnly "timestamp" (.str inpDevAlert.now_iso))
      "isViewObstructed" = false :=
  ⟨rfl, rfl, rfl, rfl⟩

/-- Claim C1 (amended): in every cycle whose model response is
successfully parsed and whose Pushover credentials are set, a Pushover
POST is dispatched iff the record reports obstruction or danger or the
`ENV` environment variable equals `dev`. -/
theorem C1_dispatch_iff_danger_obstruction_or_dev (inp : CycleInput)
    (img : List Nat) (content : String) (obj : List (String × JValue))
    (hc : inp.cameraResp = .ok img) (hm : inp.modelResp = .ok content)
    (hne : content ≠ "") (hp : inp.parseResp = some obj)
    (hcred : pushoverCreds inp.cfg = true) :
    (main inp).any isPost = true ↔
      (dictGetTruthy (dictSet obj "timestamp" (.str inp.now_iso))
          "isViewObstructed" = true
       ∨ dictGetTruthy (dictSet obj "timestamp" (.str inp.now_iso))
          "isDanger" = true
       ∨ inp.envENV = some "dev") := by
  rw [any_iff_countP, main_parsed_eq inp img content obj hc hm hne hp,
      countP_append, mainParsed_count_isPost, hcred]
  have hpre : countP (okLead inp img) isPost = 0 := by
    simp [okLead, countP_cons, countP_nil, isPost]
  rw [hpre]
  simp only [alertCondition]
  by_cases hV : dictGetTruthy (dictSet obj "timestamp" (.str inp.now_iso))
      "isViewObstructed" <;>
    by_cases hD : dictGetTruthy (dictSet obj "timestamp" (.str inp.now_iso))
      "isDanger" <;>
    by_cases hE : inp.envENV = some "dev" <;>
    simp [hV, hD, hE]

/-- Claim C1, witness: the amended dispatch equivalence instantiated at a
concrete danger-reporting cycle. -/
theorem C1_dispatch_witness :
    (main inpDanger).any isPost = true ↔
      (dictGetTruthy (dictSet objDanger "timestamp" (.str inpDanger.now_iso))
          "isViewObstructed" = true
       ∨ dictGetTruthy (dictSet objDanger "timestamp" (.str inpDanger.now_iso))
          "isDanger" = true
       ∨ inpDanger.envENV = some "dev") :=
  C1_dispatch_iff_danger_obstruction_or_dev inpDanger [1, 2, 3]
    "(raw model reply)" objDanger rfl rfl (by decide) rfl rfl

/-- Claim C2: every failure of a cycle named by the spec — a network
error on an HTTP call, a JSON decode error, missing Pushover credentials
— is caught and logged to standard output; nothing is retried (the GET
happens exactly once, encode/model-call/POST at most once); and no
failure is fatal: the loop sleeps once per iteration no matter what the
cycles did, so it always proceeds to the next timer tick. -/
theorem C2_failures_caught_locally :
    ∀ (inp : CycleInput) (interval : Int) (cycles : List CycleInput),
      failure_logged inp ∧ pushover_failures_logged ∧ no_retry inp ∧
      countP (continuous_monitoring interval cycles) isSleep = cycles.length := by
  intro inp interval cycles
  refine ⟨⟨?_, ?_, ?_⟩, ⟨?_, ?_⟩,
    ⟨main_count_isGet inp, (main_counts_le inp).1, (main_counts_le inp).2.1,
     (main_counts_le inp).2.2⟩,
    continuous_count_isSleep interval cycles⟩
  · intro e h
    rw [main_cam_error inp e h]
    simp
  · intro img e hc hm
    rw [main_model_error inp img e hc hm]
    simp [okLead]
  · intro img content hc hm hne hp
    rw [main_parse_error inp img content hc hm hne hp]
    simp [okLead]
  · intro cfg resp m t hcred
    by_cases h1 : strTruthy cfg.pushover_api_token <;>
      by_cases h2 : strTruthy cfg.pushover_user_key <;>
      simp [pushoverCreds, h1, h2] at hcred ⊢ <;>
      simp [send_pushover_alert, h1, h2]
  · intro cfg e m t hcred
    have h1 : strTruthy cfg.pushover_api_token = true := by
      have := hcred
      simp [pushoverCreds, Bool.and_eq_true] at this
      exact this.1
    have h2 : strTruthy cfg.pushover_user_key = true := by
      have := hcred
      simp [pushoverCreds, Bool.and_eq_true] at this
      exact this.2
    simp [send_pushover_alert, h1, h2]

/-- Claim C2, witness: the camera network failure of a concrete cycle is
logged to standard output. -/
theorem C2_camera_error_logged_witness :
    Effect.print ("Error capturing image: " ++ "connection refused")
      ∈ main inpCamFail :=
  (C2_failures_caught_locally inpCamFail 0 []).1.1 "connection refused" rfl

/-- Claim C3, counterexample: even in an environment that defines
`CAMERA_URL`, the camera endpoint is the hardcoded literal and ignores
the environment (and the Pushover endpoint is likewise a literal), so
not all endpoints are taken from environment variables. -/
theorem C3_hardcoded_endpoints_counterexample :
    envCustom "CAMERA_URL" = some "custom-CAMERA_URL" ∧
    (loadConfig envCustom).CAMERA_URL =
      "http://localhost:5000/snapshot/pet-cam.jpg" ∧
    (loadConfig envCustom).CAMERA_URL = (loadConfig envEmpty).CAMERA_URL ∧
    pushover_endpoint = "https://api.pushover.net/1/messages.json" :=
  ⟨rfl, rfl, rfl, rfl⟩

/-- Claim C3 (amended): all credentials are taken from environment
variables, but the camera snapshot endpoint and the notification endpoint
are hardcoded constants. -/
theorem C3_credentials_from_env_endpoints_hardcoded :
    ∀ getenv : String → Option String,
      (loadConfig getenv).openai_api_key = getenv "OPENAI_API_KEY" ∧
      (loadConfig getenv).twilio_account_sid = getenv "TWILIO_ACCOUNT_SID" ∧
      (loadConfig getenv).twilio_auth_token = getenv "TWILIO_AUTH_TOKEN" ∧
      (loadConfig getenv).twilio_from_number = getenv "TWILIO_FROM_NUMBER" ∧
      (loadConfig getenv).twilio_to_number = getenv "TWILIO_TO_NUMBER" ∧
      (loadConfig getenv).twilio_service_sid = getenv "TWILIO_SERVICE_SID" ∧
      (loadConfig getenv).pushover_api_token = getenv "PUSHOVER_API_TOKEN" ∧
      (loadConfig getenv).pushover_user_key = getenv "PUSHOVER_USER_KEY" ∧
      (loadConfig getenv).CAMERA_URL =
        "http://localhost:5000/snapshot/pet-cam.jpg" ∧
      pushover_endpoint = "https://api.pushover.net/1/messages.json" :=
  fun _ => ⟨rfl, rfl, rfl, rfl, rfl, rfl, rfl, rfl, rfl, rfl⟩

/-- Claim C4, counterexample: with interval `0` the program does not run
the monitoring loop at all — it prints the single-analysis message, never
sleeps, and never prints the loop's startup banner. -/
theorem C4_zero_interval_counterexample :
    Effect.print "Running a single analysis."
      ∈ script_entry 0 [inpCamFail, inpCamFail] inpCamFail ∧
    countP (script_entry 0 [inpCamFail, inpCamFail] inpCamFail) isSleep = 0 ∧
    Effect.print "Press Ctrl+C to stop"
      ∉ script_entry 0 [inpCamFail, inpCamFail] inpCamFail := by
  refine ⟨by decide, by decide, by decide⟩

/-- Claim C4 (amended): the interval flag defaults to 5 when absent, and
any nonzero interval dispatches to the monitoring branch; for every
*positive* interval the run loops until interrupted, with its trace equal
to the idealized loop trace, exactly one `interval * 60`-second sleep per
iteration, and no other sleep duration; for every *negative* interval the
loop is entered but the first `time.sleep` call raises an uncaught
`ValueError`, so the run performs exactly one cycle (one camera GET) and
dies instead of looping; interval `0` instead runs a single analysis
(see C8). -/
theorem C4_interval_semantics :
    parseIntervalArg none = 5 ∧
    (∀ (interval : Int) (cycles : List CycleInput) (single : CycleInput),
      interval ≠ 0 →
      script_entry interval cycles single =
        continuous_monitoring interval cycles) ∧
    (∀ (interval : Int) (cycles : List CycleInput),
      0 < interval →
      (monitorRun interval cycles).1 = continuous_monitoring interval cycles ∧
      (monitorRun interval cycles).2 = LoopExit.interrupted ∧
      countP (monitorRun interval cycles).1 isSleep = cycles.length ∧
      ∀ s : Int, Effect.sleep s ∈ (monitorRun interval cycles).1 →
        s = interval * 60) ∧
    (∀ (interval : Int) (c : CycleInput) (rest : List CycleInput),
      interval < 0 →
      (monitorRun interval (c :: rest)).2 = LoopExit.valueError ∧
      (monitorRun interval (c :: rest)).1 =
        [.print ("Starting continuous monitoring (every "
            ++ toString interval ++ " minutes)"),
         .print "Press Ctrl+C to stop"]
        ++ main c
        ++ [.print ("\nWaiting " ++ toString interval
              ++ " minutes until next check..."),
            .sleep (interval * 60)] ∧
      countP (monitorRun interval (c :: rest)).1 isGet = 1) := by
  refine ⟨rfl, ?_, ?_, ?_⟩
  · intro interval cycles single hne
    simp [script_entry, hne]
  · intro interval cycles hpos
    have h := monitorRun_nonneg interval (by omega) cycles
    rw [h]
    exact ⟨rfl, rfl, continuous_count_isSleep interval cycles,
      fun s hs => sleep_mem_continuous interval cycles s hs⟩
  · intro interval c rest hneg
    have h := monitorRun_neg interval hneg c rest
    rw [h]
    refine ⟨rfl, rfl, ?_⟩
    simp [countP_append, countP_cons, countP_nil, isGet, main_count_isGet]

/-- Claim C4, witness: at interval 5 one completed iteration matches the
idealized loop trace, while at interval -1 the run dies with the
uncaught `ValueError` after its first cycle. -/
theorem C4_interval_witness :
    (monitorRun 5 [inpCamFail]).1 = continuous_monitoring 5 [inpCamFail] ∧
    (monitorRun (-1) [inpCamFail]).2 = LoopExit.valueError :=
  ⟨(C4_interval_semantics.2.2.1 5 [inpCamFail] (by decide)).1,
   (C4_interval_semantics.2.2.2 (-1) inpCamFail [] (by decide)).1⟩

/-- Claim C5: when the camera fetch fails the cycle aborts early — its
whole trace is the two startup prints, the failed GET, the two error
prints; no base64 encode, no model call and no POST happen; and in the
loop the wait print and the sleep still follow, so the run proceeds to
the next tick. -/
theorem C5_camera_failure_aborts_cycle (inp : CycleInput) (e : String)
    (h : inp.cameraResp = .error e) :
    main inp =
      [.print ("Starting pet camera analysis at " ++ inp.now_start),
       .print "Capturing image...",
       .httpGet inp.cfg.CAMERA_URL,
       .print ("Error capturing image: " ++ e),
       .print "Failed to capture image. Exiting."] ∧
    countP (main inp) isEncode = 0 ∧ countP (main inp) isOpenai = 0 ∧
    countP (main inp) isPost = 0 ∧
    ∀ i : Int, iterationTrace i inp =
      main inp ++ [.print ("\nWaiting " ++ toString i
                    ++ " minutes until next check..."),
                   .sleep (i * 60)] := by
  have ht := main_cam_error inp e h
  refine ⟨ht, ?_, ?_, ?_, fun i => rfl⟩ <;>
    rw [ht] <;> simp [countP_cons, countP_nil, isEncode, isOpenai, isPost]

/-- Claim C5, witness: the abort shape at a concrete failed fetch. -/
theorem C5_abort_witness :
    main inpCamFail =
      [.print ("Starting pet camera analysis at " ++ inpCamFail.now_start),
       .print "Capturing image...",
       .httpGet inpCamFail.cfg.CAMERA_URL,
       .print ("Error capturing image: " ++ "connection refused"),
       .print "Failed to capture image. Exiting."] :=
  (C5_camera_failure_aborts_cycle inpCamFail "connection refused" rfl).1

/-- Claim C6, counterexample: the model supplied its own `timestamp`
field, yet the record the cycle prints carries the locally read clock
value, not the model's — the timestamp is not produced by the external
model. -/
theorem C6_model_timestamp_overwritten_counterexample :
    dictGet objStaleTimestamp "timestamp" = some (.str "1999-12-31T23:59:59") ∧
    Effect.print (dumpJson (.obj (dictSet objStaleTimestamp "timestamp"
        (.str "2026-10-12T09:00:00")))) ∈ main inpStaleTimestamp ∧
    dictGet (dictSet objStaleTimestamp "timestamp" (.str "2026-10-12T09:00:00"))
      "timestamp" = some (.str "2026-10-12T09:00:00") ∧
    ("2026-10-12T09:00:00" : String) ≠ "1999-12-31T23:59:59" := by
  refine ⟨rfl, by decide, rfl, by decide⟩

/-- Claim C6 (amended): each successful cycle builds one record from the
model's parsed reply, printed within the same cycle; its `timestamp`
field is set locally from the system clock, and every other field is
exactly what the model produced. -/
theorem C6_record_fields_provenance (inp : CycleInput) (img : List Nat)
    (content : String) (obj : List (String × JValue))
    (hc : inp.cameraResp = .ok img) (hm : inp.modelResp = .ok content)
    (hne : content ≠ "") (hp : inp.parseResp = some obj) :
    Effect.print (dumpJson (.obj (dictSet obj "timestamp" (.str inp.now_iso))))
      ∈ main inp ∧
    dictGet (dictSet obj "timestamp" (.str inp.now_iso)) "timestamp"
      = some (.str inp.now_iso) ∧
    ∀ k, k ≠ "timestamp" →
      dictGet (dictSet obj "timestamp" (.str inp.now_iso)) k = dictGet obj k := by
  refine ⟨?_, dictGet_dictSet_self obj _ _,
    fun k hk => dictGet_dictSet_ne obj _ k _ hk⟩
  rw [main_parsed_eq inp img content obj hc hm hne hp]
  simp [mainParsed, okLead]

/-- Claim C6, witness: the record provenance instantiated at a concrete
successful cycle. -/
theorem C6_record_witness :
    Effect.print (dumpJson (.obj (dictSet objDanger "timestamp"
        (.str inpDanger.now_iso)))) ∈ main inpDanger ∧
    dictGet (dictSet objDanger "timestamp" (.str inpDanger.now_iso)) "timestamp"
      = some (.str inpDanger.now_iso) ∧
    ∀ k, k ≠ "timestamp" →
      dictGet (dictSet objDanger "timestamp" (.str inpDanger.now_iso)) k
        = dictGet objDanger k :=
  C6_record_fields_provenance inpDanger [1, 2, 3] "(raw model reply)" objDanger
    rfl rfl (by decide) rfl

/-- Claim C7: the program carries no state across iterations — two loop
positions (in the same or different runs) given the same oracle inputs
produce the same iteration trace (all prints, calls and the sleep) and
the same notification decision, regardless of the surrounding history. -/
theorem C7_cycles_are_memoryless :
    ∀ (i : Int) (csA csB : List CycleInput) (a b : Nat) (c : CycleInput),
      csA[a]? = some c → csB[b]? = some c →
      (csA.map (iterationTrace i))[a]? = (csB.map (iterationTrace i))[b]? ∧
      (csA.map (fun x => (main x).any isPost))[a]? =
        (csB.map (fun x => (main x).any isPost))[b]? := by
  intro i csA csB a b c ha hb
  constructor <;> simp [List.getElem?_map, ha, hb]

/-- Claim C7, witness: the same cycle input at position 0 of one run and
position 1 of another yields identical traces and decisions. -/
theorem C7_memoryless_witness :
    (([inpDanger] : List CycleInput).map (iterationTrace 5))[0]? =
      (([inpCamFail, inpDanger] : List CycleInput).map (iterationTrace 5))[1]? ∧
    (([inpDanger] : List CycleInput).map (fun x => (main x).any isPost))[0]? =
      (([inpCamFail, inpDanger] : List CycleInput).map
        (fun x => (main x).any isPost))[1]? :=
  C7_cycles_are_memoryless 5 [inpDanger] [inpCamFail, inpDanger] 0 1 inpDanger
    rfl rfl

/-- Claim C8: with the interval flag set to `0`, `if args.interval:` is
falsy, so the program prints the single-analysis message, performs
exactly one cycle (one camera GET) with no sleep, and exits. -/
theorem C8_zero_interval_single_analysis :
    ∀ (cycles : List CycleInput) (single : CycleInput),
      script_entry 0 cycles single =
        Effect.print "Running a single analysis." :: main single ∧
      countP (script_entry 0 cycles single) isGet = 1 ∧
      countP (script_entry 0 cycles single) isSleep = 0 := by
  intro cycles single
  have h : script_entry 0 cycles single =
      Effect.print "Running a single analysis." :: main single := by
    simp [script_entry]
  refine ⟨h, ?_, ?_⟩ <;> rw [h, countP_cons] <;>
    simp [isGet, isSleep, main_count_isGet, main_count_isSleep]

/-- Claim C9: a Pushover POST can occur in a cycle only when the model
call returned a nonempty analysis and that analysis parsed as JSON. -/
theorem C9_post_requires_parsed_analysis (inp : CycleInput)
    (h : (main inp).any isPost = true) :
    (∃ content, inp.modelResp = .ok content ∧ content ≠ "") ∧
      inp.parseResp.isSome = true := by
  rcases hc : inp.cameraResp with e | img
  · rw [main_cam_error inp e hc] at h
    simp [isPost] at h
  · rcases hm : inp.modelResp with e | content
    · rw [main_model_error inp img e hc hm] at h
      simp [okLead, isPost] at h
    · by_cases hne : content = ""
      · subst hne
        rw [main_no_content inp img hc hm] at h
        simp [okLead, isPost] at h
      · rcases hp : inp.parseResp with _ | obj
        · rw [main_parse_error inp img content hc hm hne hp] at h
          simp [okLead, isPost] at h
        · exact ⟨⟨content, rfl, hne⟩, rfl⟩

/-- Claim C9, witness: a cycle that does POST indeed has a nonempty,
parsed analysis. -/
theorem C9_post_witness :
    (∃ content, inpDanger.modelResp = .ok content ∧ content ≠ "") ∧
      inpDanger.parseResp.isSome = true :=
  C9_post_requires_parsed_analysis inpDanger rfl

/-- Claim C10: no run of the program — continuous or single — ever sends
a Twilio message; the Twilio client is initialized exactly when both
credentials are truthy; and `send_text_alert` would emit a Twilio send if
it were called with the client configured, so its absence from every
trace shows it is never invoked. -/
theorem C10_twilio_never_sent :
    ∀ (interval : Int) (cycles : List CycleInput) (single : CycleInput),
      countP (script_entry interval cycles single) isTwilioSend = 0 ∧
      (∀ cfg : Config, (twilio_client cfg).isSome =
        (strTruthy cfg.twilio_account_sid && strTruthy cfg.twilio_auth_token)) ∧
      (∀ (cfg : Config) (r : Except String String) (m : String),
        countP (send_text_alert cfg r m) isTwilioSend =
          if !(twilio_client cfg).isNone && strTruthy cfg.twilio_to_number
              && strTruthy cfg.twilio_from_number then 1 else 0) := by
  intro interval cycles single
  refine ⟨?_, twilio_client_isSome, send_text_count_isTwilioSend⟩
  by_cases h : (interval != 0) = true
  · rw [script_entry, if_pos h]
    exact continuous_count_isTwilioSend interval cycles
  · rw [script_entry, if_neg h, countP_cons]
    simp [isTwilioSend, main_count_isTwilioSend]

end Dog
